import Mathlib

/-!
Shallow embedding of the convention-enforcement logic of this repository
(`scripts/core/project-intelligence.ts` and the TDD-protocol emitter), with
theorems settling the frozen claims about the duplicate detector, the naming
convention inferencer, the template emitter and the directory scanner.

JavaScript strings are modelled as `List Char` (the code only manipulates
ASCII).  Filesystem contents are modelled explicitly where an operation
reads or writes files.
-/

/-- Strings of the JavaScript program, modelled as lists of characters. -/
abbrev JStr := List Char

/-- Coerce a Lean string literal to the model type. -/
def jstr (s : String) : JStr := s.toList

/-- ASCII uppercase letter, the character class `[A-Z]` of the source regexes. -/
def isUpper (c : Char) : Bool := decide (65 ≤ c.toNat ∧ c.toNat ≤ 90)

/-- ASCII lowercase letter, the character class `[a-z]` of the source regexes. -/
def isLower (c : Char) : Bool := decide (97 ≤ c.toNat ∧ c.toNat ≤ 122)

/-- ASCII digit, the character class `[0-9]` of the source regexes. -/
def isDigit (c : Char) : Bool := decide (48 ≤ c.toNat ∧ c.toNat ≤ 57)

/-- The character class `[a-zA-Z0-9]` of the source regexes. -/
def isAlnum (c : Char) : Bool := isUpper c || isLower c || isDigit c

/-- The character class `[a-z0-9-]` of the kebab-case regex. -/
def isKebabChar (c : Char) : Bool := isLower c || isDigit c || c == '-'

/-- Whether `pat` occurs at the start of the first argument
(prefix test used to define substring containment). -/
def startsWith : JStr → JStr → Bool
  | _, [] => true
  | [], _ :: _ => false
  | c :: cs, d :: ds => c == d && startsWith cs ds

/-- JavaScript `String.prototype.includes`: `containsSeq s pat` is true iff
`pat` occurs contiguously inside `s`. -/
def containsSeq : JStr → JStr → Bool
  | [], pat => pat.isEmpty
  | c :: cs, pat => startsWith (c :: cs) pat || containsSeq cs pat

/-- `project-intelligence.ts` line 354:
`locations.find(loc => loc.includes(preferred)) || locations[0]`.
The `find` values are nonempty strings (the scanner filters out empty lines),
so the JavaScript truthiness test coincides with option matching.  For the
empty list the source would yield `undefined`; the function is only invoked
on lists of length at least two (`mapStructure`), and we default to `[]`. -/
def selectCanonicalLocation (locations : List JStr) (preferred : JStr) : JStr :=
  match locations.find? (fun loc => containsSeq loc preferred) with
  | some loc => loc
  | none => locations.headD []

/-- `mapStructure` lines 103/111/119:
`dirs.filter(dir => dir !== canonicalLocations.role)`, the paths reported as
forbidden (violations) for one role. -/
def violations (dirs : List JStr) (preferred : JStr) : List JStr :=
  dirs.filter (fun dir => dir != selectCanonicalLocation dirs preferred)

/-- `detectNamingPattern` line 360: the regex test `/[A-Z][a-z]/.test(file)`,
true iff the string contains an uppercase letter immediately followed by a
lowercase letter. -/
def hasUpperLowerPair : JStr → Bool
  | [] => false
  | [_] => false
  | c :: d :: rest => (isUpper c && isLower d) || hasUpperLowerPair (d :: rest)

/-- `detectNamingPattern` lines 358-362.  The source compares
`pascalCaseCount > files.length / 2` with JavaScript exact division; over
naturals this is `files.length < 2 * pascalCaseCount`. -/
def detectNamingPattern (files : List JStr) : JStr :=
  if files.length < 2 * (files.filter hasUpperLowerPair).length
  then jstr "PascalCase" else jstr "camelCase"

/-- `detectPatterns` lines 136-162, restricted to the `components` field:
the default is the literal `PascalCase` and `detectNamingPattern` is consulted
only when the scanned file list is nonempty. -/
def detectPatternsComponents (componentFiles : List JStr) : JStr :=
  if 0 < componentFiles.length then detectNamingPattern componentFiles
  else jstr "PascalCase"

/-- Strict lexicographic comparison of strings (used only to state what the
spec calls the lexicographically-first path; not part of the source). -/
def lexLtB : JStr → JStr → Bool
  | [], [] => false
  | [], _ :: _ => true
  | _ :: _, [] => false
  | c :: cs, d :: ds => if c < d then true else if d < c then false else lexLtB cs ds

/-- The lexicographically-first element of a list of strings (spec side,
used to state the fallback rule the spec asserts). -/
def lexFirst (l : List JStr) : JStr :=
  l.foldl (fun acc x => if lexLtB x acc then x else acc) (l.headD [])

/-- `matchesPattern` lines 382-393: full-match regex tests
`^[A-Z][a-zA-Z0-9]*$`, `^[a-z][a-zA-Z0-9]*$`, `^[a-z][a-z0-9-]*$`;
unknown pattern names validate everything. -/
def matchesPattern (name pattern : JStr) : Bool :=
  if pattern = jstr "PascalCase" then
    match name with
    | [] => false
    | c :: rest => isUpper c && rest.all isAlnum
  else if pattern = jstr "camelCase" then
    match name with
    | [] => false
    | c :: rest => isLower c && rest.all isAlnum
  else if pattern = jstr "kebab-case" then
    match name with
    | [] => false
    | c :: rest => isLower c && rest.all isKebabChar
  else true

/-- JavaScript `toUpperCase` on a single ASCII character. -/
def jsToUpperChar (c : Char) : Char :=
  if isLower c then Char.ofNat (c.toNat - 32) else c

/-- JavaScript `toLowerCase` on a single ASCII character. -/
def jsToLowerChar (c : Char) : Char :=
  if isUpper c then Char.ofNat (c.toNat + 32) else c

/-- JavaScript `String.prototype.toLowerCase` restricted to ASCII. -/
def jsToLower (s : JStr) : JStr := s.map jsToLowerChar

/-- The regex replacement `replace(/[A-Z]/g, "-$&")` of
`suggestCorrectNaming`: each uppercase letter is preceded by a dash. -/
def kebabReplace : JStr → JStr
  | [] => []
  | c :: cs => if isUpper c then '-' :: c :: kebabReplace cs else c :: kebabReplace cs

/-- The second regex replacement of `suggestCorrectNaming`, which removes a
single leading dash (the regex is anchored at the start of the string). -/
def stripLeadingDash : JStr → JStr
  | [] => []
  | c :: cs => if c = '-' then cs else c :: cs

/-- `suggestCorrectNaming` lines 395-406.  `charAt(0)` of the empty string is
the empty string, so the PascalCase and camelCase branches leave `""` alone. -/
def suggestCorrectNaming (name pattern : JStr) : JStr :=
  if pattern = jstr "PascalCase" then
    match name with
    | [] => []
    | c :: rest => jsToUpperChar c :: rest
  else if pattern = jstr "camelCase" then
    match name with
    | [] => []
    | c :: rest => jsToLowerChar c :: rest
  else if pattern = jstr "kebab-case" then
    stripLeadingDash (kebabReplace (jsToLower name))
  else name

/-- `findSimilarFeatures` lines 375-380: case-insensitive mutual containment
against the catalog of existing feature names. -/
def findSimilarFeatures (existingFeatures : List JStr) (feature : JStr) : List JStr :=
  existingFeatures.filter (fun e =>
    containsSeq (jsToLower e) (jsToLower feature) ||
    containsSeq (jsToLower feature) (jsToLower e))

/-- Result record of `validateNaming` (interface `ValidationResult`). -/
structure ValidationResult where
  isValid : Bool
  issues : List JStr
  suggestions : List JStr
deriving DecidableEq

/-- The issue message pushed by `validateNaming` when the name does not match
the naming pattern (the source text contains an apostrophe, elided here). -/
def nameIssueMsg (pattern : JStr) : JStr :=
  jstr "Name does not match " ++ pattern ++ jstr " pattern"

/-- The suggestion pushed alongside a naming-pattern issue. -/
def considerSugg (s : JStr) : JStr := jstr "Consider: " ++ s

/-- The issue message pushed when a similar feature already exists. -/
def similarMsg : JStr := jstr "Similar feature already exists"

/-- The suggestion pushed alongside a similar-feature issue. -/
def existingSugg (features : List JStr) : JStr :=
  jstr "Existing: " ++ List.intercalate (jstr ", ") features

/-- The (issues, suggestions) contributed by the naming-pattern check of
`validateNaming` lines 313-318.  The pattern is `patterns[fileType]`, which
in JavaScript is `undefined` (here `none`) for an unknown key, and a falsy
pattern skips the check. -/
def namingPart (patternOpt : Option JStr) (name : JStr) : List JStr × List JStr :=
  match patternOpt with
  | some p =>
      if matchesPattern name p then ([], [])
      else ([nameIssueMsg p], [considerSugg (suggestCorrectNaming name p)])
  | none => ([], [])

/-- The (issues, suggestions) contributed by the similar-feature check of
`validateNaming` lines 320-325. -/
def conflictPart (existingFeatures : List JStr) (name : JStr) : List JStr × List JStr :=
  if 0 < (findSimilarFeatures existingFeatures name).length
  then ([similarMsg], [existingSugg (findSimilarFeatures existingFeatures name)])
  else ([], [])

/-- `validateNaming` lines 309-332: runs the naming-pattern check, then the
conflict check, and reports `isValid` iff the issue list stayed empty. -/
def validateNaming (patternOpt : Option JStr) (existingFeatures : List JStr)
    (proposedName : JStr) : ValidationResult :=
  { isValid :=
      ((namingPart patternOpt proposedName).1 ++
        (conflictPart existingFeatures proposedName).1).length == 0
    issues := (namingPart patternOpt proposedName).1 ++
      (conflictPart existingFeatures proposedName).1
    suggestions := (namingPart patternOpt proposedName).2 ++
      (conflictPart existingFeatures proposedName).2 }

/-- The per-role `canonicalLocations` entries built by `mapStructure`
lines 92-131, with one field per scanned role. -/
structure DirectoryStructure where
  components : Option JStr
  docs : Option JStr
  lib : Option JStr
  forbiddenLocations : List JStr
  duplicateStructures : List JStr
deriving DecidableEq

/-- One role of `mapStructure`: the canonical location is recorded only when
the scan found more than one directory for the role. -/
def roleCanonical (dirs : List JStr) (preferred : JStr) : Option JStr :=
  if 1 < dirs.length then some (selectCanonicalLocation dirs preferred) else none

/-- One role of `mapStructure`: the forbidden locations recorded for a role. -/
def roleForbidden (dirs : List JStr) (preferred : JStr) : List JStr :=
  if 1 < dirs.length then violations dirs preferred else []

/-- One role of `mapStructure`: the duplicate structures recorded for a role. -/
def roleDuplicates (dirs : List JStr) : List JStr :=
  if 1 < dirs.length then dirs else []

/-- `mapStructure` lines 92-131, as a function of the three scan results
(the results of `findDirectories` for `components`, `docs` and `lib`). -/
def mapStructure (componentDirs docsDirs libDirs : List JStr) : DirectoryStructure :=
  { components := roleCanonical componentDirs (jstr "src/components")
    docs := roleCanonical docsDirs (jstr "docs")
    lib := roleCanonical libDirs (jstr "src/lib")
    forbiddenLocations :=
      roleForbidden componentDirs (jstr "src/components") ++
      roleForbidden docsDirs (jstr "docs") ++
      roleForbidden libDirs (jstr "src/lib")
    duplicateStructures :=
      roleDuplicates componentDirs ++ roleDuplicates docsDirs ++
      roleDuplicates libDirs }

/-- `suggestLocation` lines 289-304.  The test location comes from the
detected test framework (`testLocation || "__tests__"`); that value and the
canonical entries are nonempty strings when present, so JavaScript falsiness
coincides with option matching. -/
def suggestLocation (ds : DirectoryStructure) (testLocation : Option JStr)
    (fileType : JStr) : JStr :=
  if fileType = jstr "component" then ds.components.getD (jstr "src/components")
  else if fileType = jstr "utility" then ds.lib.getD (jstr "src/lib")
  else if fileType = jstr "test" then testLocation.getD (jstr "__tests__")
  else if fileType = jstr "documentation" then ds.docs.getD (jstr "docs")
  else jstr "src"

/-- JavaScript whitespace stripped by `String.prototype.trim` (ASCII part). -/
def jsIsWhitespace (c : Char) : Bool :=
  c == ' ' || c == '\n' || c == '\t' || c == '\r'

/-- JavaScript `String.prototype.trim` restricted to ASCII whitespace. -/
def jsTrim (s : JStr) : JStr :=
  ((s.dropWhile jsIsWhitespace).reverse.dropWhile jsIsWhitespace).reverse

/-- Helper of `splitNewline`: accumulates the current line (reversed). -/
def splitNewlineAux : JStr → JStr → List JStr
  | [], acc => [acc.reverse]
  | c :: rest, acc =>
      if c = '\n' then acc.reverse :: splitNewlineAux rest []
      else splitNewlineAux rest (c :: acc)

/-- JavaScript `split("\n")` on the newline character. -/
def splitNewline (s : JStr) : List JStr := splitNewlineAux s []

/-- `findDirectories` lines 335-342.  The external `find | grep` pipeline is
modelled by its outcome: `Except.error` when `execSync` throws (nonzero exit,
as when the pipeline produces no output or the command fails), `Except.ok`
with the raw standard output otherwise.  The catch block swallows every error
into an empty list; otherwise the trimmed output is split on newlines and
empty lines are dropped (`filter(Boolean)`). -/
def findDirectories (execOutcome : Except Unit JStr) : List JStr :=
  match execOutcome with
  | Except.error _ => []
  | Except.ok out => (splitNewline (jsTrim out)).filter (fun l => l ≠ [])

/-- `findFiles` lines 344-352: identical parse and error handling as
`findDirectories` (only the shell command differs). -/
def findFiles (execOutcome : Except Unit JStr) : List JStr :=
  match execOutcome with
  | Except.error _ => []
  | Except.ok out => (splitNewline (jsTrim out)).filter (fun l => l ≠ [])

/-- Configuration record of the TDD protocol (`TDDConfig`). -/
structure TDDConfig where
  testFramework : JStr
  testLocation : JStr
  componentLocation : JStr
  utilityLocation : JStr
deriving DecidableEq

/-- Node `path.join` for the plain relative segments used by the emitter. -/
def pathJoin (a b : JStr) : JStr := a ++ '/' :: b

/-- Generated file contents.  The source generators return fixed template
literals (large JSX/TypeScript strings); their exact text plays no role in
the claims, so each template is represented by a distinct tag carrying the
interpolated feature name where the template uses it. -/
inductive Content where
  | componentTest (name : JStr)
  | utilityTest (name : JStr)
  | apiTest (name : JStr)
  | hookTest (name : JStr)
  | genericTest (name : JStr)
  | minimalComponent (name : JStr)
  | minimalUtility (name : JStr)
  | minimalApi
  | minimalHook
  | minimalGeneric
  | selfHealingComponent (name : JStr)
  | selfHealingUtility (name : JStr)
  | selfHealingApi
  | selfHealingHook
  | selfHealingGeneric
deriving DecidableEq

/-- A filesystem snapshot: newest write first, lookup takes the first hit. -/
abbrev FS := List (JStr × Content)

/-- Read the content stored at a path, if any. -/
def fsLookup (fs : FS) (p : JStr) : Option Content :=
  (fs.find? (fun e => e.1 == p)).map (fun e => e.2)

/-- Node `writeFileSync`: unconditional write, shadowing any previous entry. -/
def writeFileSync (fs : FS) (p : JStr) (c : Content) : FS := (p, c) :: fs

/-- `getTestPath` lines 530-533: `join(testLocation, type + "s", name + ".test.tsx")`. -/
def getTestPath (cfg : TDDConfig) (name ftype : JStr) : JStr :=
  pathJoin (pathJoin cfg.testLocation (ftype ++ jstr "s")) (name ++ jstr ".test.tsx")

/-- `getImplementationPath` lines 535-548: switch on the feature type with a
default branch placing unknown kinds under `src`. -/
def getImplementationPath (cfg : TDDConfig) (name ftype : JStr) : JStr :=
  if ftype = jstr "component" then pathJoin cfg.componentLocation (name ++ jstr ".tsx")
  else if ftype = jstr "utility" then pathJoin cfg.utilityLocation (name ++ jstr ".ts")
  else if ftype = jstr "api" then
    pathJoin (pathJoin (jstr "src/app/api") (jsToLower name)) (jstr "route.ts")
  else if ftype = jstr "hook" then
    pathJoin (jstr "src/hooks") (jstr "use" ++ name ++ jstr ".ts")
  else pathJoin (jstr "src") (name ++ jstr ".ts")

/-- `generateTestContent` lines 140-156: switch on the feature type; the
default branch produces the generic test template. -/
def generateTestContent (name ftype : JStr) : Content :=
  if ftype = jstr "component" then Content.componentTest name
  else if ftype = jstr "utility" then Content.utilityTest name
  else if ftype = jstr "api" then Content.apiTest name
  else if ftype = jstr "hook" then Content.hookTest name
  else Content.genericTest name

/-- `generateMinimalImplementation` lines 349-362: switch on the feature
type; the default branch produces the generic implementation template. -/
def generateMinimalImplementation (name ftype : JStr) : Content :=
  if ftype = jstr "component" then Content.minimalComponent name
  else if ftype = jstr "utility" then Content.minimalUtility name
  else if ftype = jstr "api" then Content.minimalApi
  else if ftype = jstr "hook" then Content.minimalHook
  else Content.minimalGeneric

/-- `generateSelfHealingImplementation` lines 367-380: same dispatch for the
self-healing rewrite of the implementation file. -/
def generateSelfHealingImplementation (name ftype : JStr) : Content :=
  if ftype = jstr "component" then Content.selfHealingComponent name
  else if ftype = jstr "utility" then Content.selfHealingUtility name
  else if ftype = jstr "api" then Content.selfHealingApi
  else if ftype = jstr "hook" then Content.selfHealingHook
  else Content.selfHealingGeneric

/-- `createFailingTest` lines 96-106: ensures the parent directory exists
(directory creation does not affect file contents and is not modelled) and
then writes the test file unconditionally — there is no existence check on
the target path. -/
def createFailingTest (fs : FS) (cfg : TDDConfig) (name ftype : JStr) : FS :=
  writeFileSync fs (getTestPath cfg name ftype) (generateTestContent name ftype)

/-- `createMinimalImplementation` lines 111-121: unconditional write of the
implementation file, again with no existence check. -/
def createMinimalImplementation (fs : FS) (cfg : TDDConfig) (name ftype : JStr) : FS :=
  writeFileSync fs (getImplementationPath cfg name ftype)
    (generateMinimalImplementation name ftype)

/-- `addSelfHealingMechanisms` lines 126-135: rewrites the implementation
file with the self-healing template, unconditionally. -/
def addSelfHealingMechanisms (fs : FS) (cfg : TDDConfig) (name ftype : JStr) : FS :=
  writeFileSync fs (getImplementationPath cfg name ftype)
    (generateSelfHealingImplementation name ftype)

/-- Steps 3-5 of `createFeature` lines 81-88: the file-writing pipeline of
one generation run (test, then implementation, then self-healing rewrite). -/
def createFeatureWrites (fs : FS) (cfg : TDDConfig) (name ftype : JStr) : FS :=
  addSelfHealingMechanisms
    (createMinimalImplementation (createFailingTest fs cfg name ftype) cfg name ftype)
    cfg name ftype

/-- The default `TDDConfig` of `detectTDDConfig` lines 40-46. -/
def cfg0 : TDDConfig :=
  { testFramework := jstr "jest"
    testLocation := jstr "__tests__"
    componentLocation := jstr "src/components"
    utilityLocation := jstr "src/lib" }

/-- The test path of feature `X` of kind `component` under `cfg0`. -/
def testPathX : JStr := getTestPath cfg0 (jstr "X") (jstr "component")

/-- A filesystem on which the test path of feature `X` already exists. -/
def fsSeeded : FS := [(testPathX, Content.minimalGeneric)]

theorem upper_not_lower (c : Char) (h : isUpper c = true) : isLower c = false := by
  simp [isUpper] at h
  simp [isLower]
  omega

theorem lower_not_upper (c : Char) (h : isLower c = true) : isUpper c = false := by
  simp [isLower] at h
  simp [isUpper]
  omega

theorem kebabChar_not_upper (c : Char) (h : isKebabChar c = true) : isUpper c = false := by
  simp [isKebabChar, isLower, isDigit] at h
  rcases h with (h | h) | rfl
  · simp [isUpper]; omega
  · simp [isUpper]; omega
  · decide

theorem jsToUpperChar_of_upper (c : Char) (h : isUpper c = true) :
    jsToUpperChar c = c := by
  simp [jsToUpperChar, upper_not_lower c h]

theorem jsToLowerChar_of_lower (c : Char) (h : isLower c = true) :
    jsToLowerChar c = c := by
  simp [jsToLowerChar, lower_not_upper c h]

theorem jsToLower_of_no_upper (s : JStr) (h : ∀ c ∈ s, isUpper c = false) :
    jsToLower s = s := by
  induction s with
  | nil => rfl
  | cons c cs ih =>
      have hc : isUpper c = false := h c (List.mem_cons_self _ _)
      simp [jsToLower, jsToLowerChar, hc]
      simpa [jsToLower] using ih (fun d hd => h d (List.mem_cons_of_mem _ hd))

theorem kebabReplace_of_no_upper (s : JStr) (h : ∀ c ∈ s, isUpper c = false) :
    kebabReplace s = s := by
  induction s with
  | nil => rfl
  | cons c cs ih =>
      have hc : isUpper c = false := h c (List.mem_cons_self _ _)
      simp [kebabReplace, hc]
      exact ih (fun d hd => h d (List.mem_cons_of_mem _ hd))

theorem lower_ne_dash (c : Char) (h : isLower c = true) : ¬(c = '-') := by
  intro he
  rw [he] at h
  exact absurd h (by decide)

theorem suggest_id (name P : JStr)
    (hP : P = jstr "PascalCase" ∨ P = jstr "camelCase" ∨ P = jstr "kebab-case")
    (h : matchesPattern name P = true) : suggestCorrectNaming name P = name := by
  rcases hP with hP | hP | hP <;> subst hP
  · cases name with
    | nil => simp +decide [matchesPattern] at h
    | cons c rest =>
        simp +decide [matchesPattern] at h
        simp +decide [suggestCorrectNaming, jsToUpperChar_of_upper c h.1]
  · cases name with
    | nil => simp +decide [matchesPattern] at h
    | cons c rest =>
        simp +decide [matchesPattern] at h
        simp +decide [suggestCorrectNaming, jsToLowerChar_of_lower c h.1]
  · cases name with
    | nil => simp +decide [matchesPattern] at h
    | cons c rest =>
        simp +decide [matchesPattern, List.all_eq_true] at h
        obtain ⟨hc, hrest⟩ := h
        have hnoup : ∀ d ∈ (c :: rest), isUpper d = false := by
          intro d hd
          rcases List.mem_cons.mp hd with h1 | h2
          · subst h1; exact lower_not_upper _ hc
          · exact kebabChar_not_upper _ (hrest d h2)
        simp +decide only [suggestCorrectNaming]
        rw [jsToLower_of_no_upper _ hnoup, kebabReplace_of_no_upper _ hnoup]
        simp [stripLeadingDash, lower_ne_dash c hc]

/-- Claim C10: `suggestCorrectNaming` is the identity on names that already
match the target convention (PascalCase, camelCase or kebab-case), and hence
applying it twice agrees with applying it once on every name whose single
application yields a conforming result. -/
theorem C10_suggest_identity_idempotent (name P : JStr)
    (hP : P = jstr "PascalCase" ∨ P = jstr "camelCase" ∨ P = jstr "kebab-case") :
    (matchesPattern name P = true → suggestCorrectNaming name P = name) ∧
    (matchesPattern (suggestCorrectNaming name P) P = true →
      suggestCorrectNaming (suggestCorrectNaming name P) P = suggestCorrectNaming name P) :=
  ⟨suggest_id name P hP, fun h => suggest_id _ P hP h⟩

/-- Witness for C10 at the conforming PascalCase name `Foo`. -/
theorem C10_witness :
    suggestCorrectNaming (jstr "Foo") (jstr "PascalCase") = jstr "Foo" :=
  (C10_suggest_identity_idempotent (jstr "Foo") (jstr "PascalCase") (Or.inl rfl)).1
    (by decide)

theorem namingPart_length (patternOpt : Option JStr) (name : JStr) :
    (namingPart patternOpt name).1.length = (namingPart patternOpt name).2.length := by
  rcases patternOpt with _ | p
  · rfl
  · by_cases h : matchesPattern name p <;> simp [namingPart, h]

theorem conflictPart_length (existingFeatures : List JStr) (name : JStr) :
    (conflictPart existingFeatures name).1.length =
      (conflictPart existingFeatures name).2.length := by
  by_cases h : 0 < (findSimilarFeatures existingFeatures name).length <;>
    simp [conflictPart, h]

/-- Claim C9: `validateNaming` reports `isValid` exactly when its issue list
is empty, issues and suggestions are recorded in matching numbers, and a
naming-pattern issue always comes with its `Consider:` suggestion. -/
theorem C9_validateNaming_wellformed (patternOpt : Option JStr)
    (existingFeatures : List JStr) (name : JStr) :
    ((validateNaming patternOpt existingFeatures name).isValid = true ↔
      (validateNaming patternOpt existingFeatures name).issues = []) ∧
    (validateNaming patternOpt existingFeatures name).issues.length =
      (validateNaming patternOpt existingFeatures name).suggestions.length ∧
    (∀ p, patternOpt = some p → matchesPattern name p = false →
      nameIssueMsg p ∈ (validateNaming patternOpt existingFeatures name).issues ∧
      considerSugg (suggestCorrectNaming name p) ∈
        (validateNaming patternOpt existingFeatures name).suggestions) := by
  refine ⟨?_, ?_, ?_⟩
  · simp [validateNaming, List.length_eq_zero]
  · simp [validateNaming, namingPart_length, conflictPart_length]
  · intro p hp hnm
    subst hp
    constructor
    · simp [validateNaming, namingPart, hnm]
    · simp [validateNaming, namingPart, hnm]

/-- Witness for C9: the nonconforming PascalCase proposal `foo` records the
naming issue. -/
theorem C9_witness :
    nameIssueMsg (jstr "PascalCase") ∈
      (validateNaming (some (jstr "PascalCase")) [] (jstr "foo")).issues :=
  ((C9_validateNaming_wellformed (some (jstr "PascalCase")) [] (jstr "foo")).2.2
    (jstr "PascalCase") rfl (by decide)).1

theorem selectCanonical_eq_find (locations : List JStr) (preferred : JStr) :
    selectCanonicalLocation locations preferred =
      (locations.find? (fun loc => containsSeq loc preferred)).getD
        (locations.headD []) := by
  unfold selectCanonicalLocation
  cases locations.find? (fun loc => containsSeq loc preferred) <;> rfl

theorem selectCanonical_mem (locations : List JStr) (preferred : JStr)
    (h : locations ≠ []) :
    selectCanonicalLocation locations preferred ∈ locations := by
  rw [selectCanonical_eq_find]
  cases hf : locations.find? (fun loc => containsSeq loc preferred) with
  | some a => simpa using List.mem_of_find?_eq_some hf
  | none =>
      simp only [Option.getD_none]
      cases locations with
      | nil => exact absurd rfl h
      | cons x xs => simp

/-- Claim C1 (amended): the canonical path is the first path containing the
preferred substring; when no path contains it, the canonical path is the
first path of the list in input order; every path different from the
canonical one is a violation, and the canonical path is not. -/
theorem C1_canonical_selection (locations : List JStr) (preferred : JStr)
    (h : locations ≠ []) :
    ((∃ l₁ l₂, locations = l₁ ++ selectCanonicalLocation locations preferred :: l₂ ∧
        containsSeq (selectCanonicalLocation locations preferred) preferred = true ∧
        ∀ x ∈ l₁, containsSeq x preferred = false) ∨
      ((∀ x ∈ locations, containsSeq x preferred = false) ∧
        selectCanonicalLocation locations preferred = locations.head h)) ∧
    (∀ d ∈ locations, d ≠ selectCanonicalLocation locations preferred →
      d ∈ violations locations preferred) ∧
    selectCanonicalLocation locations preferred ∉ violations locations preferred := by
  refine ⟨?_, ?_, ?_⟩
  · rw [selectCanonical_eq_find]
    cases hf : locations.find? (fun loc => containsSeq loc preferred) with
    | some a =>
        left
        obtain ⟨hpa, as, bs, heq, hall⟩ := List.find?_eq_some.mp hf
        exact ⟨as, bs, by simpa using heq, by simpa using hpa,
          fun x hx => by simpa using hall x hx⟩
    | none =>
        right
        have hnone := List.find?_eq_none.mp hf
        refine ⟨fun x hx => by simpa using hnone x hx, ?_⟩
        cases locations with
        | nil => exact absurd rfl h
        | cons x xs => rfl
  · intro d hd hne
    unfold violations
    refine List.mem_filter.mpr ⟨hd, ?_⟩
    simpa [bne_iff_ne] using hne
  · intro hmem
    have := (List.mem_filter.mp hmem).2
    simp at this

/-- Witness for C1 (amended) at a two-element scan in which the first path
contains the preferred substring. -/
theorem C1_witness :
    selectCanonicalLocation [jstr "src/components", jstr "components"]
        (jstr "src/components") ∉
      violations [jstr "src/components", jstr "components"] (jstr "src/components") :=
  (C1_canonical_selection [jstr "src/components", jstr "components"]
    (jstr "src/components") (by decide)).2.2

/-- Counterexample for C1 as stated: in the scan `["b", "a"]` with preferred
substring `q`, no path contains the substring and the lexicographically-first
path is `a`, yet `selectCanonicalLocation` returns `b`, the first path in
input order. -/
theorem C1_counterexample :
    (([jstr "b", jstr "a"].all (fun l => !containsSeq l (jstr "q"))) = true) ∧
    lexFirst [jstr "b", jstr "a"] = jstr "a" ∧
    selectCanonicalLocation [jstr "b", jstr "a"] (jstr "q") = jstr "b" ∧
    jstr "b" ≠ jstr "a" := by decide

/-- Claim C2 (amended): the inferencer computes only the single heuristic
count of filenames containing an uppercase letter followed by a lowercase
letter; it reports PascalCase exactly when that count exceeds half the list
length, otherwise camelCase, and it can never report kebab-case. -/
theorem C2_majority_heuristic (files : List JStr) :
    (detectNamingPattern files = jstr "PascalCase" ↔
      files.length < 2 * (files.filter hasUpperLowerPair).length) ∧
    (detectNamingPattern files = jstr "PascalCase" ∨
      detectNamingPattern files = jstr "camelCase") ∧
    detectNamingPattern files ≠ jstr "kebab-case" := by
  by_cases h : files.length < 2 * (files.filter hasUpperLowerPair).length
  · unfold detectNamingPattern
    rw [if_pos h]
    exact ⟨⟨fun _ => h, fun _ => rfl⟩, Or.inl rfl, by decide⟩
  · unfold detectNamingPattern
    rw [if_neg h]
    exact ⟨⟨fun he => absurd he (by decide), fun hc => absurd hc h⟩,
      Or.inr rfl, by decide⟩

/-- Counterexample for C2 as stated: the list consisting of the single
kebab-case filename `foo-bar` (it matches the kebab-case regex of the very
same source file) is classified as camelCase, not kebab-case. -/
theorem C2_counterexample :
    matchesPattern (jstr "foo-bar") (jstr "kebab-case") = true ∧
    detectNamingPattern [jstr "foo-bar"] = jstr "camelCase" ∧
    jstr "camelCase" ≠ jstr "kebab-case" := by decide

/-- Claim C6: the inferencer (as wrapped by `detectPatterns`) returns
PascalCase on `["Foo.tsx", "Bar.tsx", "Baz.tsx"]`, camelCase on
`["foo.ts", "barBaz.ts"]`, and the configured default `PascalCase` on the
empty list. -/
theorem C6_inferencer_examples :
    detectPatternsComponents [jstr "Foo.tsx", jstr "Bar.tsx", jstr "Baz.tsx"] =
      jstr "PascalCase" ∧
    detectPatternsComponents [jstr "foo.ts", jstr "barBaz.ts"] = jstr "camelCase" ∧
    detectPatternsComponents [] = jstr "PascalCase" := by decide

/-- Claim C7: the duplicate detector is deterministic — on equal inputs it
returns the same canonical path and the same violation list. -/
theorem C7_detector_deterministic (l₁ l₂ : List JStr) (p₁ p₂ : JStr)
    (h₁ : l₁ = l₂) (h₂ : p₁ = p₂) :
    selectCanonicalLocation l₁ p₁ = selectCanonicalLocation l₂ p₂ ∧
    violations l₁ p₁ = violations l₂ p₂ := by
  subst h₁
  subst h₂
  exact ⟨rfl, rfl⟩

/-- Witness for C7 at a concrete scan. -/
theorem C7_witness :
    selectCanonicalLocation [jstr "src/components"] (jstr "src/components") =
      selectCanonicalLocation [jstr "src/components"] (jstr "src/components") ∧
    violations [jstr "src/components"] (jstr "src/components") =
      violations [jstr "src/components"] (jstr "src/components") :=
  C7_detector_deterministic [jstr "src/components"] [jstr "src/components"]
    (jstr "src/components") (jstr "src/components") rfl rfl

theorem roleCanonical_mem (dirs : List JStr) (preferred : JStr) (c : JStr)
    (h : roleCanonical dirs preferred = some c) : c ∈ dirs := by
  unfold roleCanonical at h
  by_cases hlen : 1 < dirs.length
  · rw [if_pos hlen] at h
    injection h with h
    subst h
    refine selectCanonical_mem dirs preferred ?_
    intro hnil
    rw [hnil] at hlen
    simp at hlen
  · rw [if_neg hlen] at h
    exact absurd h (by simp)

/-- Claim C8: every canonical entry recorded by `mapStructure` is an element
of the corresponding scan list, and `suggestLocation` returns the recorded
canonical path for components when one exists and the configured default
`src/components` when none was recorded. -/
theorem C8_canonical_invariant (componentDirs docsDirs libDirs : List JStr)
    (testLocation : Option JStr) :
    (∀ c, (mapStructure componentDirs docsDirs libDirs).components = some c →
      c ∈ componentDirs) ∧
    (∀ c, (mapStructure componentDirs docsDirs libDirs).docs = some c →
      c ∈ docsDirs) ∧
    (∀ c, (mapStructure componentDirs docsDirs libDirs).lib = some c →
      c ∈ libDirs) ∧
    (∀ c, (mapStructure componentDirs docsDirs libDirs).components = some c →
      suggestLocation (mapStructure componentDirs docsDirs libDirs) testLocation
        (jstr "component") = c) ∧
    ((mapStructure componentDirs docsDirs libDirs).components = none →
      suggestLocation (mapStructure componentDirs docsDirs libDirs) testLocation
        (jstr "component") = jstr "src/components") := by
  refine ⟨?_, ?_, ?_, ?_, ?_⟩
  · intro c hc
    exact roleCanonical_mem componentDirs (jstr "src/components") c hc
  · intro c hc
    exact roleCanonical_mem docsDirs (jstr "docs") c hc
  · intro c hc
    exact roleCanonical_mem libDirs (jstr "src/lib") c hc
  · intro c hc
    simp only [suggestLocation, if_pos rfl]
    rw [hc]
    rfl
  · intro hc
    simp only [suggestLocation, if_pos rfl]
    rw [hc]
    rfl

/-- Witness for C8: with duplicate component directories the recorded
canonical location `src/components` is a member of the scan list. -/
theorem C8_witness :
    jstr "src/components" ∈ [jstr "components", jstr "src/components"] :=
  (C8_canonical_invariant [jstr "components", jstr "src/components"] [] [] none).1
    (jstr "src/components") (by decide)

theorem fsLookup_writeFileSync (fs : FS) (p : JStr) (c : Content) :
    fsLookup (writeFileSync fs p c) p = some c := by
  unfold fsLookup writeFileSync
  rw [List.find?_cons_of_pos _ (by simp)]
  rfl

/-- Claim C3 (amended): the emitter performs no existence check — even when
the target path already holds a file, `createFailingTest` and
`createMinimalImplementation` write their templates to it, silently
overwriting the previous content; no error is possible. -/
theorem C3_overwrites_existing (fs : FS) (cfg : TDDConfig) (name ftype : JStr)
    (old : Content)
    (_h : fsLookup fs (getTestPath cfg name ftype) = some old) :
    fsLookup (createFailingTest fs cfg name ftype) (getTestPath cfg name ftype)
      = some (generateTestContent name ftype) ∧
    (∀ old2, fsLookup fs (getImplementationPath cfg name ftype) = some old2 →
      fsLookup (createMinimalImplementation fs cfg name ftype)
          (getImplementationPath cfg name ftype)
        = some (generateMinimalImplementation name ftype)) := by
  constructor
  · exact fsLookup_writeFileSync fs _ _
  · intro old2 _
    exact fsLookup_writeFileSync fs _ _

/-- Witness for C3 (amended): on the seeded filesystem the pre-existing test
file of feature `X` is overwritten with the component test template. -/
theorem C3_witness :
    fsLookup (createFailingTest fsSeeded cfg0 (jstr "X") (jstr "component"))
        (getTestPath cfg0 (jstr "X") (jstr "component"))
      = some (Content.componentTest (jstr "X")) :=
  (C3_overwrites_existing fsSeeded cfg0 (jstr "X") (jstr "component")
    Content.minimalGeneric (by decide)).1

/-- Counterexample for C3 as stated: the test path of `generate("X",
"component")` already exists on the seeded filesystem, yet the emitter does
not fail — it writes to that very path, replacing the old content. -/
theorem C3_counterexample :
    fsLookup fsSeeded testPathX = some Content.minimalGeneric ∧
    fsLookup (createFailingTest fsSeeded cfg0 (jstr "X") (jstr "component")) testPathX
      = some (Content.componentTest (jstr "X")) ∧
    Content.componentTest (jstr "X") ≠ Content.minimalGeneric := by decide

/-- Claim C4 (amended): a feature kind other than component, utility, api
and hook is not rejected — every generator falls through to its generic
default branch and the generation run writes the generic skeleton files. -/
theorem C4_unknown_kind_generic (fs : FS) (cfg : TDDConfig) (name ftype : JStr)
    (h1 : ftype ≠ jstr "component") (h2 : ftype ≠ jstr "utility")
    (h3 : ftype ≠ jstr "api") (h4 : ftype ≠ jstr "hook") :
    generateTestContent name ftype = Content.genericTest name ∧
    generateMinimalImplementation name ftype = Content.minimalGeneric ∧
    generateSelfHealingImplementation name ftype = Content.selfHealingGeneric ∧
    fsLookup (createFeatureWrites fs cfg name ftype)
        (getImplementationPath cfg name ftype)
      = some Content.selfHealingGeneric ∧
    fsLookup (createFailingTest fs cfg name ftype) (getTestPath cfg name ftype)
      = some (Content.genericTest name) := by
  have hg : generateSelfHealingImplementation name ftype = Content.selfHealingGeneric := by
    simp [generateSelfHealingImplementation, h1, h2, h3, h4]
  have ht : generateTestContent name ftype = Content.genericTest name := by
    simp [generateTestContent, h1, h2, h3, h4]
  refine ⟨ht, by simp [generateMinimalImplementation, h1, h2, h3, h4], hg, ?_, ?_⟩
  · unfold createFeatureWrites addSelfHealingMechanisms
    rw [fsLookup_writeFileSync, hg]
  · unfold createFailingTest
    rw [fsLookup_writeFileSync, ht]

/-- Witness for C4 (amended) at the unknown kind `widget`. -/
theorem C4_witness :
    generateMinimalImplementation (jstr "X") (jstr "widget") = Content.minimalGeneric :=
  (C4_unknown_kind_generic [] cfg0 (jstr "X") (jstr "widget")
    (by decide) (by decide) (by decide) (by decide)).2.1

/-- Counterexample for C4 as stated: the unrecognized kind `widget` does not
fail — the run writes a generic test skeleton and a generic implementation
skeleton under `src`. -/
theorem C4_counterexample :
    jstr "widget" ≠ jstr "component" ∧ jstr "widget" ≠ jstr "utility" ∧
    jstr "widget" ≠ jstr "api" ∧ jstr "widget" ≠ jstr "hook" ∧
    fsLookup (createFeatureWrites [] cfg0 (jstr "X") (jstr "widget"))
        (getImplementationPath cfg0 (jstr "X") (jstr "widget"))
      = some Content.selfHealingGeneric ∧
    fsLookup (createFeatureWrites [] cfg0 (jstr "X") (jstr "widget"))
        (getTestPath cfg0 (jstr "X") (jstr "widget"))
      = some (Content.genericTest (jstr "X")) := by decide

/-- Claim C5 (amended): the scanner helpers never fail — a failing `find`
pipeline (as with a bad root) is caught and yields the empty list, and on
success every returned entry is a nonempty line of the trimmed output. -/
theorem C5_scanner_never_fails (out : JStr) :
    findDirectories (Except.error ()) = [] ∧
    findFiles (Except.error ()) = [] ∧
    (∀ l ∈ findDirectories (Except.ok out),
      l ≠ [] ∧ l ∈ splitNewline (jsTrim out)) ∧
    (∀ l ∈ findFiles (Except.ok out),
      l ≠ [] ∧ l ∈ splitNewline (jsTrim out)) := by
  refine ⟨rfl, rfl, ?_, ?_⟩
  · intro l hl
    have := List.mem_filter.mp hl
    exact ⟨by simpa using this.2, this.1⟩
  · intro l hl
    have := List.mem_filter.mp hl
    exact ⟨by simpa using this.2, this.1⟩

/-- Witness for C5 (amended) at a concrete two-line scan output. -/
theorem C5_witness :
    jstr "a" ≠ ([] : JStr) ∧
    jstr "a" ∈ splitNewline (jsTrim (jstr "a\nb")) :=
  (C5_scanner_never_fails (jstr "a\nb")).2.2.1 (jstr "a") (by decide)

/-- Counterexample for C5 as stated: when the underlying command fails (the
case of a nonexistent root), the scanner does not fail with any error — the
exception is swallowed and both helpers succeed with the empty list. -/
theorem C5_counterexample :
    findDirectories (Except.error ()) = [] ∧
    findFiles (Except.error ()) = [] := by decide
